import Mathlib

/-!
Verification of the forwarding plugin (`alerta/plugins/forwarder.py`).

The plugin forwards alerts, actions and deletes to configured remote
destinations, guarding against forwarding loops via the `X-Alerta-Loop`
header. This development shallowly embeds the plugin's logic:

* the inbound `X-Alerta-Loop` header value is an `Option String`
  (`request.headers.get` returns `None` when absent);
* the node's own origin (`http_origin()`, i.e. `absolute_url()`) is an
  explicit `String` parameter;
* Python's substring test `server in x_loop` is embedded as `pyIn`,
  defined by explicit recursion over character lists;
* each configured destination carries, besides its endpoint string and
  permitted-operation list, an oracle per remote capability
  (`send_alert`, `action`, `delete_alert`) giving the outcome the remote
  call would have (success with a message, or a raised exception
  captured as an error string).  The opaque credential bundle (`auth`),
  logging and `print` calls are omitted: they do not affect any modelled
  outcome.
* each hook returns its Python return value together with the list of
  per-destination dispatch outcomes; a raised `ForwardingLoop` is an
  `Except.error`.
-/

/-- Result of one remote capability call (what `client.send_alert`,
`client.action` or `client.delete_alert` would do): `ok msg` for a normal
return, `err e` for a raised exception caught by the surrounding `try`. -/
inductive RemoteResult where
  | ok (msg : String)
  | err (msg : String)
deriving DecidableEq, Repr

/-- An alert; the plugin only reads its `id` (and serialises an opaque
body, which does not affect modelled outcomes). -/
structure Alert where
  id : String
deriving DecidableEq, Repr

/-- The `ForwardingLoop` exception raised by the loop guards. -/
inductive FwdError where
  | forwardingLoop (msg : String)
deriving DecidableEq, Repr

/-- One entry of the `FWD_DESTINATIONS` configuration: the tuple
`(remote, auth, actions)` with `auth` omitted (opaque, never inspected),
plus one oracle per remote capability. -/
structure Destination where
  remote : String
  actions : List String
  send_alert : RemoteResult
  action : RemoteResult
  delete_alert : RemoteResult
deriving DecidableEq, Repr

/-- Per-destination outcome of one fan-out dispatch, used to express
which branch of the loop body was taken.  `sent`/`failed` mean the remote
capability was invoked (the `try` block was entered); the two `skipped`
outcomes mean the loop body hit a `continue` before any remote call. -/
inductive Outcome where
  | sent (msg : String)
  | failed (err : String)
  | skippedLoop
  | skippedNotConfigured
deriving DecidableEq, Repr

/-- An outcome in which the remote capability was actually invoked. -/
def Outcome.attempted : Outcome → Bool
  | .sent _ => true
  | .failed _ => true
  | .skippedLoop => false
  | .skippedNotConfigured => false

/-- Whether `l` starts with `p` (character-list version of a prefix
test), used to define Python's substring operator. -/
def listStartsWith : List Char → List Char → Bool
  | _, [] => true
  | [], _ :: _ => false
  | a :: as, b :: bs => a == b && listStartsWith as bs

/-- Whether `needle` occurs contiguously inside `hay`. -/
def listHasSub : List Char → List Char → Bool
  | [], needle => needle.isEmpty
  | h :: t, needle => listStartsWith (h :: t) needle || listHasSub t needle

/-- Python's `needle in hay` substring test on strings. -/
def pyIn (needle hay : String) : Bool :=
  listHasSub hay.data needle.data

/-- Embedding of `append_to_header(origin)`: reads the inbound
`X-Alerta-Loop` header (passed here as `x_loop`); Python's `not x_loop`
is true for both an absent header and an empty-string header. -/
def append_to_header (x_loop : Option String) (origin : String) : String :=
  match x_loop with
  | none => origin
  | some s => if s = "" then origin else s ++ "," ++ origin

/-- Embedding of `is_in_xloop(server)`: substring test of `server`
against the raw header value, with `''` as default for an absent header. -/
def is_in_xloop (x_loop : Option String) (server : String) : Bool :=
  pyIn server (x_loop.getD "")

/-- Splitting a character list at every occurrence of `sep` (the
character-list version of Python's `str.split(sep)`). -/
def splitChars (sep : Char) : List Char → List (List Char)
  | [] => [[]]
  | c :: rest =>
    match splitChars sep rest with
    | [] => if c == sep then [[], []] else [[c]]
    | g :: gs => if c == sep then [] :: g :: gs else (c :: g) :: gs

/-- Spec-side decoding of the loop header (spec section 4.1): splitting
on commas, with an absent header giving the empty chain.  Declared only
to compare the code's substring semantics against element membership. -/
def specDecode : Option String → List String
  | none => []
  | some s => (splitChars ',' s.data).map String.mk

/-- Spec-side chain membership (spec section 4.1 `contains`): element
membership in the decoded chain. -/
def specContains (chain : List String) (id : String) : Bool :=
  chain.contains id

namespace Forwarder

/-- Embedding of `Forwarder.pre_receive`: raise `ForwardingLoop` when the
node's own origin is in the inbound header, else return the alert. -/
def pre_receive (origin : String) (x_loop : Option String) (alert : Alert) :
    Except FwdError Alert :=
  if is_in_xloop x_loop origin then
    .error (.forwardingLoop
      ("Alert " ++ alert.id ++ " already processed by " ++ origin ++ ". Ignoring."))
  else
    .ok alert

/-- The `post_receive` loop body for one destination: skip when the
destination is already in the raw header, skip when neither `*` nor
`fwd` is among its permitted operations, else invoke `send_alert`. -/
def post_receive_one (x_loop : Option String) (d : Destination) : Outcome :=
  if pyIn d.remote (x_loop.getD "") then
    .skippedLoop
  else if !(d.actions.contains "*" || d.actions.contains "fwd") then
    .skippedNotConfigured
  else
    match d.send_alert with
    | .ok m => .sent m
    | .err e => .failed e

/-- The fan-out loop of `Forwarder.post_receive` over `FWD_DESTINATIONS`,
collecting each destination's outcome in order. -/
def post_receive_dispatch (x_loop : Option String) (dests : List Destination) :
    List (String × Outcome) :=
  dests.map fun d => (d.remote, post_receive_one x_loop d)

/-- Embedding of `Forwarder.post_receive`: run the fan-out and return the
alert unchanged (the hook never raises; remote errors are caught). -/
def post_receive (x_loop : Option String) (alert : Alert)
    (dests : List Destination) : List (String × Outcome) × Alert :=
  (post_receive_dispatch x_loop dests, alert)

/-- Embedding of `Forwarder.status_change`: the body is a bare `return`,
so no destination is contacted and `None` is returned. -/
def status_change (alert : Alert) (status text : String)
    (dests : List Destination) : List (String × Outcome) × Option Alert :=
  ([], none)

/-- The `take_action` loop body for one destination: skip when already in
the raw header, skip unless `*`, `actions` or the action name itself is
among the permitted operations, else invoke the remote `action` call. -/
def take_action_one (x_loop : Option String) (act : String) (d : Destination) :
    Outcome :=
  if pyIn d.remote (x_loop.getD "") then
    .skippedLoop
  else if !(d.actions.contains "*" || d.actions.contains "actions"
      || d.actions.contains act) then
    .skippedNotConfigured
  else
    match d.action with
    | .ok m => .sent m
    | .err e => .failed e

/-- The fan-out loop of `Forwarder.take_action` over `FWD_DESTINATIONS`. -/
def take_action_dispatch (x_loop : Option String) (act : String)
    (dests : List Destination) : List (String × Outcome) :=
  dests.map fun d => (d.remote, take_action_one x_loop act d)

/-- Embedding of `Forwarder.take_action`: guard against loops (raise
`ForwardingLoop` when the origin is in the raw header), then fan out and
return the alert. -/
def take_action (origin : String) (x_loop : Option String) (alert : Alert)
    (act text : String) (dests : List Destination) :
    Except FwdError (List (String × Outcome) × Alert) :=
  if pyIn origin (x_loop.getD "") then
    .error (.forwardingLoop
      ("Alert " ++ alert.id ++ " action " ++ act ++ " already processed by "
        ++ origin ++ "."))
  else
    .ok (take_action_dispatch x_loop act dests, alert)

/-- The `delete` loop body for one destination: skip when already in the
raw header, skip unless `*`, `actions` or `delete` is among the permitted
operations, else invoke the remote `delete_alert` call. -/
def delete_one (x_loop : Option String) (d : Destination) : Outcome :=
  if pyIn d.remote (x_loop.getD "") then
    .skippedLoop
  else if !(d.actions.contains "*" || d.actions.contains "actions"
      || d.actions.contains "delete") then
    .skippedNotConfigured
  else
    match d.delete_alert with
    | .ok m => .sent m
    | .err e => .failed e

/-- The fan-out loop of `Forwarder.delete` over `FWD_DESTINATIONS`. -/
def delete_dispatch (x_loop : Option String) (dests : List Destination) :
    List (String × Outcome) :=
  dests.map fun d => (d.remote, delete_one x_loop d)

/-- Embedding of `Forwarder.delete`: guard against loops, then fan out
and return `True` regardless of the remote outcomes. -/
def delete (origin : String) (x_loop : Option String) (alert : Alert)
    (dests : List Destination) :
    Except FwdError (List (String × Outcome) × Bool) :=
  if pyIn origin (x_loop.getD "") then
    .error (.forwardingLoop
      ("Alert " ++ alert.id ++ " already deleted by " ++ origin ++ "."))
  else
    .ok (delete_dispatch x_loop dests, true)

end Forwarder

/-- The permission test of the `post_receive` loop (line 59 of the
source): `'*' in actions or 'fwd' in actions`. -/
def fwd_permitted (actions : List String) : Bool :=
  actions.contains "*" || actions.contains "fwd"

/-- The permission test of the `take_action` loop (line 108):
`'*' in actions or 'actions' in actions or action in actions`. -/
def action_permitted (actions : List String) (act : String) : Bool :=
  actions.contains "*" || actions.contains "actions" || actions.contains act

/-- The permission test of the `delete` loop (line 152):
`'*' in actions or 'actions' in actions or 'delete' in actions`. -/
def delete_permitted (actions : List String) : Bool :=
  actions.contains "*" || actions.contains "actions"
    || actions.contains "delete"

/-! Helper lemmas about the substring test. -/

theorem listStartsWith_self (l : List Char) : listStartsWith l l = true := by
  induction l with
  | nil => rfl
  | cons h t ih => simp [listStartsWith, ih]

theorem listHasSub_self (l : List Char) : listHasSub l l = true := by
  cases l with
  | nil => rfl
  | cons h t => simp [listHasSub, listStartsWith_self]

theorem listHasSub_append (pre n : List Char) :
    listHasSub (pre ++ n) n = true := by
  induction pre with
  | nil => simpa using listHasSub_self n
  | cons h t ih => simp [listHasSub, ih]

theorem str_data_append (a b : String) : (a ++ b).data = a.data ++ b.data := by
  cases a; cases b; rfl

theorem pyIn_self (s : String) : pyIn s s = true :=
  listHasSub_self s.data

theorem pyIn_append (pre s : String) : pyIn s (pre ++ s) = true := by
  unfold pyIn
  rw [str_data_append]
  exact listHasSub_append pre.data s.data

/-! Sample configuration entries used in concrete instances. -/

/-- A reachable destination `A`, permitted for everything. -/
def dOkA : Destination := ⟨"A", ["*"], .ok "ma", .ok "ma", .ok "ma"⟩

/-- A destination `B` whose every remote call raises. -/
def dFailB : Destination :=
  ⟨"B", ["*"], .err "boom", .err "boom", .err "boom"⟩

/-- A reachable destination `C`, permitted for everything. -/
def dOkC : Destination := ⟨"C", ["*"], .ok "mc", .ok "mc", .ok "mc"⟩

/-- An unreachable destination `D` whose every remote call raises. -/
def dDown : Destination :=
  ⟨"D", ["*"], .err "down", .err "down", .err "down"⟩

/-- A wildcard destination `W` with a reachable remote. -/
def dWild : Destination := ⟨"W", ["*"], .ok "m", .ok "m", .ok "m"⟩

/-- A destination whose endpoint `nodeA` sits in the inbound chain used
by the concrete skip instances. -/
def dLoop : Destination := ⟨"nodeA", ["*"], .ok "m", .ok "m", .ok "m"⟩

/-- C1 counterexample: with header value `nodeA` and self origin `node`,
the origin is not a member of the chain decoded from the header, yet
`pre_receive` raises `ForwardingLoop` instead of returning the alert
unchanged. -/
theorem pre_receive_not_chain_membership :
    specContains (specDecode (some "nodeA")) "node" = false ∧
      (Forwarder.pre_receive "node" (some "nodeA") ⟨"a1"⟩).toOption = none := by
  decide

/-- C1 (amended): the pre-receive guard raises `ForwardingLoop` exactly
when the self origin occurs as a substring of the raw `X-Alerta-Loop`
header value (rather than as a member of the decoded chain), and
otherwise returns the alert unchanged; in particular, with header
`nodeA,nodeB` it raises for origin `nodeB` and passes for `nodeC`. -/
theorem pre_receive_guard (origin : String) (x_loop : Option String)
    (a : Alert) :
    (pyIn origin (x_loop.getD "") = true →
      ∃ m, Forwarder.pre_receive origin x_loop a =
        .error (.forwardingLoop m)) ∧
    (pyIn origin (x_loop.getD "") = false →
      Forwarder.pre_receive origin x_loop a = .ok a) ∧
    (∃ m, Forwarder.pre_receive "nodeB" (some "nodeA,nodeB") a =
      .error (.forwardingLoop m)) ∧
    Forwarder.pre_receive "nodeC" (some "nodeA,nodeB") a = .ok a := by
  refine ⟨fun h => ?_, fun h => ?_, ?_, rfl⟩
  · have hx : is_in_xloop x_loop origin = true := h
    simp only [Forwarder.pre_receive, hx, if_true]
    exact ⟨_, rfl⟩
  · have hx : is_in_xloop x_loop origin = false := h
    simp [Forwarder.pre_receive, hx]
  · exact ⟨_, rfl⟩

/-- C1 witness: the raising direction of the guard at a concrete input. -/
theorem pre_receive_guard_witness :
    ∃ m, Forwarder.pre_receive "node" (some "nodeA") ⟨"a1"⟩ =
      .error (.forwardingLoop m) :=
  (pre_receive_guard "node" (some "nodeA") ⟨"a1"⟩).1 (by decide)

/-- C2: appending an identifier to any chain (also an absent one) and
testing the resulting header for that identifier always succeeds: the
appended id is a literal suffix of the new header value, so the code's
containment test `is_in_xloop` finds it. -/
theorem append_then_contains (x_loop : Option String) (id : String) :
    is_in_xloop (some (append_to_header x_loop id)) id = true := by
  cases x_loop with
  | none => simpa [is_in_xloop, append_to_header] using pyIn_self id
  | some s =>
    by_cases hs : s = ""
    · simp [is_in_xloop, append_to_header, hs, pyIn_self]
    · simp only [is_in_xloop, append_to_header, hs, if_neg,
        Option.getD_some, not_false_iff]
      exact pyIn_append (s ++ ",") id

/-- C3: a destination whose endpoint occurs in the inbound chain is
recorded as skipped (already in loop) at its own position by each of the
three fan-out dispatches, whatever its permitted operations, and that
outcome is one in which the remote capability was never invoked. -/
theorem in_chain_skipped (x_loop : Option String) (dests : List Destination)
    (i : Nat) (d : Destination) (act : String)
    (hd : dests[i]? = some d)
    (hin : pyIn d.remote (x_loop.getD "") = true) :
    (Forwarder.post_receive_dispatch x_loop dests)[i]? =
        some (d.remote, Outcome.skippedLoop) ∧
      (Forwarder.take_action_dispatch x_loop act dests)[i]? =
        some (d.remote, Outcome.skippedLoop) ∧
      (Forwarder.delete_dispatch x_loop dests)[i]? =
        some (d.remote, Outcome.skippedLoop) ∧
      Outcome.attempted Outcome.skippedLoop = false := by
  refine ⟨?_, ?_, ?_, rfl⟩ <;>
    simp [Forwarder.post_receive_dispatch, Forwarder.take_action_dispatch,
      Forwarder.delete_dispatch, List.getElem?_map, hd,
      Forwarder.post_receive_one, Forwarder.take_action_one,
      Forwarder.delete_one, hin]

/-- C3 witness: a wildcard-permitted destination whose endpoint `nodeA`
already sits in the chain is skipped by all three dispatches. -/
theorem in_chain_skipped_witness :
    (Forwarder.post_receive_dispatch (some "nodeA") [dLoop])[0]? =
        some ("nodeA", Outcome.skippedLoop) ∧
      (Forwarder.take_action_dispatch (some "nodeA") "ack" [dLoop])[0]? =
        some ("nodeA", Outcome.skippedLoop) ∧
      (Forwarder.delete_dispatch (some "nodeA") [dLoop])[0]? =
        some ("nodeA", Outcome.skippedLoop) ∧
      Outcome.attempted Outcome.skippedLoop = false :=
  in_chain_skipped (some "nodeA") [dLoop] 0 dLoop "ack" (by decide) (by decide)

/-- C4: the create/update fan-out records one outcome per configured
destination, each computed from that destination alone — so a raising
remote call is converted to a `failed` outcome and never aborts the rest
of the batch nor the hook — and the hook returns the alert unchanged; in
particular, with three destinations whose second remote call raises, the
first and third are still attempted. -/
theorem post_receive_isolation (x_loop : Option String) (a : Alert)
    (dests : List Destination) (i : Nat) :
    ((Forwarder.post_receive x_loop a dests).1)[i]? =
        (dests[i]?).map
          (fun d => (d.remote, Forwarder.post_receive_one x_loop d)) ∧
      (Forwarder.post_receive x_loop a dests).2 = a ∧
      (Forwarder.post_receive none a [dOkA, dFailB, dOkC]).1 =
        [("A", Outcome.sent "ma"), ("B", Outcome.failed "boom"),
          ("C", Outcome.sent "mc")] ∧
      (Forwarder.post_receive none a [dOkA, dFailB, dOkC]).1.map
          (fun r => Outcome.attempted r.2) =
        [true, true, true] := by
  refine ⟨?_, rfl, rfl, rfl⟩
  simp [Forwarder.post_receive, Forwarder.post_receive_dispatch,
    List.getElem?_map]

/-- C5 counterexample: a destination permitted only for `fwd` is
nevertheless permitted for an action event whose action name is literally
`fwd`, because the action gate also accepts the exact action name. -/
theorem fwd_only_permits_action_fwd :
    action_permitted ["fwd"] "fwd" = true := by decide

/-- C5 (amended): the permission gates follow the section 4.3 table — an
action event is permitted iff the operation set holds `*`, `actions` or
the exact action name; a delete iff it holds `*`, `actions` or `delete`;
a create/update forward iff it holds `*` or `fwd` — and a destination
with operations `["fwd"]` is not permitted for any action event except
one whose action name is itself `fwd`. -/
theorem permission_table (acts : List String) (act : String) :
    (fwd_permitted acts = true ↔ "*" ∈ acts ∨ "fwd" ∈ acts) ∧
      (action_permitted acts act = true ↔
        "*" ∈ acts ∨ "actions" ∈ acts ∨ act ∈ acts) ∧
      (delete_permitted acts = true ↔
        "*" ∈ acts ∨ "actions" ∈ acts ∨ "delete" ∈ acts) ∧
      (act ≠ "fwd" → action_permitted ["fwd"] act = false) := by
  refine ⟨?_, ?_, ?_, fun h => ?_⟩
  · simp [fwd_permitted]
  · simp [action_permitted, or_assoc]
  · simp [delete_permitted, or_assoc]
  · simp [action_permitted, h]

/-- C5 witness: a `fwd`-only destination is not permitted for the
`shelve` action. -/
theorem permission_table_witness :
    action_permitted ["fwd"] "shelve" = false :=
  (permission_table ["fwd"] "shelve").2.2.2 (by decide)

/-- C6: a destination whose permitted-operation list holds the wildcard
`*` is permitted by all three gates, for every action name. -/
theorem wildcard_permitted (acts : List String) (act : String)
    (h : acts.contains "*" = true) :
    fwd_permitted acts = true ∧ action_permitted acts act = true ∧
      delete_permitted acts = true := by
  have hm : "*" ∈ acts := by simpa using h
  refine ⟨?_, ?_, ?_⟩ <;>
    simp [fwd_permitted, action_permitted, delete_permitted, hm]

/-- C6 witness: the wildcard gate decisions at a concrete destination
and action name. -/
theorem wildcard_permitted_witness :
    fwd_permitted ["*"] = true ∧ action_permitted ["*"] "raise" = true ∧
      delete_permitted ["*"] = true :=
  wildcard_permitted ["*"] "raise" (by decide)

/-- C7: whenever the delete loop guard passes, the delete hook returns
`True`, whatever each destination's remote outcome is, so remote delete
failures are never surfaced to the caller. -/
theorem delete_returns_true (origin : String) (x_loop : Option String)
    (a : Alert) (dests : List Destination)
    (h : pyIn origin (x_loop.getD "") = false) :
    ∃ rs, Forwarder.delete origin x_loop a dests = .ok (rs, true) := by
  have hx : pyIn origin (x_loop.getD "") = false := h
  simp only [Forwarder.delete, hx, Bool.false_eq_true, if_false]
  exact ⟨_, rfl⟩

/-- C7 witness: with every configured destination's remote delete
raising, the hook still returns `True`. -/
theorem delete_returns_true_witness :
    ∃ rs, Forwarder.delete "nodeC" (some "nodeA,nodeB") ⟨"a1"⟩
      [dFailB, dDown] = .ok (rs, true) :=
  delete_returns_true "nodeC" (some "nodeA,nodeB") ⟨"a1"⟩ [dFailB, dDown]
    (by decide)

/-- C8 counterexample: the empty identifier is reported present even
against an absent loop header, because the substring test accepts the
empty needle everywhere. -/
theorem empty_id_in_absent_chain : is_in_xloop none "" = true := by decide

/-- C8 (amended): membership of a nonempty identifier against an absent
loop header is always false; the empty identifier alone is reported
present. -/
theorem absent_header_no_member (id : String) (h : id ≠ "") :
    is_in_xloop none id = false := by
  cases id with
  | mk l =>
    cases l with
    | nil => exact absurd rfl h
    | cons c cs => rfl

/-- C8 witness: a concrete nonempty identifier is not found in the chain
of an absent header. -/
theorem absent_header_no_member_witness : is_in_xloop none "nodeA" = false :=
  absent_header_no_member "nodeA" (by decide)

/-- C9 counterexample: with a wildcard destination configured and its
remote reachable, a status change produces no dispatch at all (the hook
body is a bare `return None`), while a create/update forward to the same
destination does reach it — status changes are not replicated. -/
theorem status_change_not_replicated :
    (Forwarder.status_change ⟨"a1"⟩ "ack" "note" [dWild]).1 = [] ∧
      (Forwarder.status_change ⟨"a1"⟩ "ack" "note" [dWild]).2 = none ∧
      (Forwarder.post_receive none ⟨"a1"⟩ [dWild]).1 =
        [("W", Outcome.sent "m")] :=
  ⟨rfl, rfl, rfl⟩

/-- C9 (amended): status-change events are not replicated: the
status-change hook contacts no destination and returns `None`, while the
create/update fan-out records one outcome per configured destination. -/
theorem status_change_noop (a : Alert) (st tx : String)
    (dests : List Destination) (x_loop : Option String) :
    Forwarder.status_change a st tx dests = ([], none) ∧
      ((Forwarder.post_receive x_loop a dests).1).length = dests.length :=
  ⟨rfl, by simp [Forwarder.post_receive, Forwarder.post_receive_dispatch]⟩

/-- C10: the loop guards test the self origin as a raw substring of the
whole header value, not as a comma-delimited element: with header
`nodeA`, the origin `node` is not an element of the decoded chain, yet
all three guard hooks raise `ForwardingLoop`; and the empty origin is
treated as present in every chain, including the absent one. -/
theorem guards_use_substring (a : Alert) (act text : String)
    (dests : List Destination) :
    specContains (specDecode (some "nodeA")) "node" = false ∧
      (∃ m, Forwarder.pre_receive "node" (some "nodeA") a =
        .error (.forwardingLoop m)) ∧
      (∃ m, Forwarder.take_action "node" (some "nodeA") a act text dests =
        .error (.forwardingLoop m)) ∧
      (∃ m, Forwarder.delete "node" (some "nodeA") a dests =
        .error (.forwardingLoop m)) ∧
      (∀ x_loop : Option String, is_in_xloop x_loop "" = true) := by
  refine ⟨by decide, ⟨_, rfl⟩, ⟨_, rfl⟩, ⟨_, rfl⟩, ?_⟩
  intro x_loop
  cases x_loop with
  | none => rfl
  | some s =>
    show listHasSub s.data [] = true
    cases hs : s.data with
    | nil => rfl
    | cons c cs => rfl
